import Mathlib

/-!
Verification of the remote-claude monitoring / remote-action subsystem.

This file shallowly embeds the Python sources of the repository
(`src/hooks/responder.py`, `src/hooks/notify.py`, `src/hooks/watch.py`,
`src/hooks/prompt_parser.py`) as executable Lean definitions and proves
properties about them.

Modelling conventions:
* Python strings are Lean `String`s; operations the sources use
  (`str.split`, `str.strip`, `str.startswith`, slicing, `"x".join`) are
  re-implemented over `String.data` (`pySplit`, `pyStrip`, ...) so that they
  are kernel-computable and provable; they implement exactly the Python
  semantics used by the sources.
* `time.time()` values are integers: `Nat` for the token authority and the
  watcher (all comparisons there are of the form `now - t > k`, on which
  truncated subtraction agrees with real-valued Python arithmetic since both
  sides are `false` whenever the difference is negative), and `Int` for the
  responder's rate limiter, whose window filter `t > now - WINDOW` requires
  signed arithmetic to be faithful.
* Library cryptography and encodings are abstracted as function parameters:
  `sig : String → String` stands for
  `hmac.new(SECRET_KEY, ·, sha256).hexdigest()[:16]` (a fixed keyed hash of
  the message), and `enc : String → String` / `dec : String → Option String`
  stand for URL-safe base64 encoding/decoding, assumed to satisfy
  `dec (enc x) = some x`; `dec = none` models a decoding exception.
* External collaborator calls (tmux capture / send-keys / has-session, DNS
  resolution, HTTP POSTs) are abstracted as explicit environment parameters;
  a `Bool`/`Option` result models success/failure of the external call.
* Python exceptions that the sources catch are modelled by `Option`/error
  results on exactly the operations that can raise inside the guarded block.
-/

/-! ## Python string primitives (over `String.data`) -/

/-- Python `str.strip()`: remove leading and trailing whitespace. -/
def pyStrip (s : String) : String :=
  ⟨((s.data.dropWhile Char.isWhitespace).reverse.dropWhile Char.isWhitespace).reverse⟩

/-- Split a character list at every occurrence of `sep`
(Python `str.split(sep)` for a one-character separator). -/
def splitOnChar (sep : Char) : List Char → List (List Char)
  | [] => [[]]
  | c :: cs =>
    match splitOnChar sep cs with
    | [] => [[]]
    | g :: gs => if c = sep then [] :: g :: gs else (c :: g) :: gs

/-- Python `s.split(sep)` for a one-character separator. -/
def pySplit (sep : Char) (s : String) : List String :=
  (splitOnChar sep s.data).map (fun l => ⟨l⟩)

/-- Python `sep.join(xs)`. -/
def pyJoin (sep : String) : List String → String
  | [] => ""
  | [x] => x
  | x :: y :: xs => x ++ sep ++ pyJoin sep (y :: xs)

/-- Python `s.startswith(p)`. -/
def pyStartswith (s p : String) : Bool :=
  p.data.isPrefixOf s.data

/-- Python `s.endswith(p)`. -/
def pyEndswith (s p : String) : Bool :=
  p.data.isSuffixOf s.data

/-- Python `s.lower()` (ASCII, which is all the sources compare). -/
def pyLower (s : String) : String :=
  ⟨s.data.map Char.toLower⟩

/-- Decimal digit character for `d` (`d ≥ 9` clamps to `'9'`, never reached
with in-range arguments). -/
def digitChar : Nat → Char
  | 0 => '0' | 1 => '1' | 2 => '2' | 3 => '3' | 4 => '4'
  | 5 => '5' | 6 => '6' | 7 => '7' | 8 => '8' | _ => '9'

/-- Inverse of `digitChar`: the value of a decimal digit character. -/
def charDigit? (c : Char) : Option Nat :=
  if 48 ≤ c.toNat ∧ c.toNat ≤ 57 then some (c.toNat - 48) else none

/-- Little-endian decimal digits of `n`, with explicit fuel (structural, so
the kernel can evaluate it). -/
def natToRevDigits : Nat → Nat → List Char
  | 0, _ => []
  | fuel + 1, n =>
    if n < 10 then [digitChar n]
    else digitChar (n % 10) :: natToRevDigits fuel (n / 10)

/-- Big-endian decimal digit characters of `n`. -/
def natReprChars (n : Nat) : List Char :=
  (natToRevDigits (n + 1) n).reverse

/-- Decimal string of a natural number: the value Python's
`f"{timestamp:.0f}"` / `str(int)` produce for non-negative integers. -/
def natRepr (n : Nat) : String :=
  ⟨natReprChars n⟩

/-- Accumulating decimal parser over a character list. -/
def parseDigitsAux (acc : Nat) : List Char → Option Nat
  | [] => some acc
  | c :: cs =>
    match charDigit? c with
    | some d => parseDigitsAux (acc * 10 + d) cs
    | none => none

/-- Parse a non-empty all-digit character list as a natural number. -/
def natParseChars? : List Char → Option Nat
  | [] => none
  | cs => parseDigitsAux 0 cs

/-- Model of Python `float(timestamp_str)` restricted to the decimal integer
strings that `generate_token` embeds; any other string models the parsing
exception (caught by `validate_token`'s `except` clause). -/
def natParse? (s : String) : Option Nat :=
  natParseChars? s.data

/-! ## Token Authority (`src/hooks/responder.py`) -/

/-- `TOKEN_EXPIRY_SECONDS = 300` (responder.py line 47). -/
def TOKEN_EXPIRY_SECONDS : Nat := 300

/-- `USED_TOKENS_CLEANUP_INTERVAL = 600` (responder.py line 55). -/
def USED_TOKENS_CLEANUP_INTERVAL : Nat := 600

/-- The process-wide mutable state of the token authority: the `USED_TOKENS`
set (modelled as a duplicate-free list) and `LAST_CLEANUP`. -/
structure TokenState where
  usedTokens : List String
  lastCleanup : Nat
deriving DecidableEq

/-- Python `set.add` on the used-token set. -/
def addUsed (t : String) (l : List String) : List String :=
  if t ∈ l then l else t :: l

/-- Result of `validate_token`: `(True, session, action, "")` or
`(False, None, None, error_message)`. -/
inductive TokenResult
  | ok (session action : String)
  | err (message : String)
deriving DecidableEq

/-- `generate_token(session, action, timestamp)` (responder.py lines
117-135): serialize `session:action:timestamp`, sign, append the signature
and base64-encode.  `enc` abstracts `base64.urlsafe_b64encode`, `sig`
abstracts the HMAC-SHA256-prefix signature. -/
def generate_token (enc : String → String) (sig : String → String)
    (session action : String) (timestamp : Nat) : String :=
  let message := session ++ ":" ++ action ++ ":" ++ natRepr timestamp
  let signature := sig message
  enc (message ++ ":" ++ signature)

/-- `validate_token(token)` (responder.py lines 138-185), returning the
result together with the updated token-authority state.  `dec` abstracts
`base64.urlsafe_b64decode` + UTF-8 decode (`none` = exception), `sig` is the
same signature function used by `generate_token`. -/
def validate_token (dec : String → Option String) (sig : String → String)
    (token : String) (now : Nat) (st : TokenState) : TokenResult × TokenState :=
  -- periodic wholesale cleanup of USED_TOKENS
  let st1 := if now - st.lastCleanup > USED_TOKENS_CLEANUP_INTERVAL
             then ⟨[], now⟩ else st
  match dec token with
  | none => (.err "Token validation error", st1)
  | some tokenData =>
    match pySplit ':' tokenData with
    | [session, action, timestampStr, providedSig] =>
      match natParse? timestampStr with
      | none => (.err "Token validation error", st1)
      | some timestamp =>
        if now - timestamp > TOKEN_EXPIRY_SECONDS then
          (.err "Token expired", st1)
        else if token ∈ st1.usedTokens then
          (.err "Token already used", st1)
        else if sig (session ++ ":" ++ action ++ ":" ++ timestampStr) ≠ providedSig then
          (.err "Invalid signature", st1)
        else
          (.ok session action, { st1 with usedTokens := addUsed token st1.usedTokens })
    | _ => (.err "Invalid token format", st1)

/-! ## Responder rate limiter (`src/hooks/responder.py` lines 58-98) -/

/-- `RATE_LIMIT_REQUESTS = 10` (responder.py line 59). -/
def RATE_LIMIT_REQUESTS : Nat := 10

/-- `RATE_LIMIT_WINDOW = 60` seconds (responder.py line 60). -/
def RATE_LIMIT_WINDOW : Int := 60

/-- The rate limiter's mutable state: `_rate_limit_tracker` (an IP-keyed
dict of request-timestamp lists, modelled as an association list) and
`_rate_limit_last_cleanup`. -/
structure RLState where
  tracker : List (String × List Int)
  lastCleanup : Int
deriving DecidableEq

/-- Dict lookup `_rate_limit_tracker.get(ip, [])`. -/
def rlLookup (ip : String) : List (String × List Int) → List Int
  | [] => []
  | (k, v) :: rest => if k = ip then v else rlLookup ip rest

/-- Dict assignment `_rate_limit_tracker[ip] = v`. -/
def rlSet (ip : String) (v : List Int) : List (String × List Int) → List (String × List Int)
  | [] => [(ip, v)]
  | (k, w) :: rest => if k = ip then (k, v) :: rest else (k, w) :: rlSet ip v rest

/-- The periodic sweep inside `check_rate_limit` (lines 75-81): drop
timestamps older than twice the window and delete emptied entries. -/
def rlCleanup (now : Int) (tr : List (String × List Int)) : List (String × List Int) :=
  (tr.map (fun e => (e.1, e.2.filter (fun t => decide (now - RATE_LIMIT_WINDOW * 2 < t))))).filter
    (fun e => !e.2.isEmpty)

/-- `check_rate_limit(client_ip)` (responder.py lines 65-98): prune the
caller's window, reject if the quota is reached, otherwise record the
request.  Returns `(allowed, new state)`. -/
def check_rate_limit (clientIp : String) (now : Int) (st : RLState) : Bool × RLState :=
  let st1 := if now - st.lastCleanup > 300 then RLState.mk (rlCleanup now st.tracker) now else st
  let recent := (rlLookup clientIp st1.tracker).filter (fun t => decide (now - RATE_LIMIT_WINDOW < t))
  if recent.length ≥ RATE_LIMIT_REQUESTS then
    (false, { st1 with tracker := rlSet clientIp recent st1.tracker })
  else
    (true, { st1 with tracker := rlSet clientIp (recent ++ [now]) st1.tracker })

/-- Fold `check_rate_limit` over a sequence of request times from one IP,
collecting the allow/deny decisions (test harness for the scenario parts of
the rate-limiter property). -/
def rlRun (ip : String) (times : List Int) (st : RLState) : List Bool × RLState :=
  match times with
  | [] => ([], st)
  | t :: ts =>
    let r := check_rate_limit ip t st
    let rest := rlRun ip ts r.2
    (r.1 :: rest.1, rest.2)

/-! ## Action Responder HTTP layer (`src/hooks/responder.py` lines 250-339) -/

/-- `ACTION_KEYS` (responder.py lines 251-257). -/
def ACTION_KEYS : List (String × String) :=
  [("yes", "y"), ("no", "n"), ("always", "!"), ("skip", "s"), ("abort", "a")]

/-- `ACTION_KEYS.get(action)`. -/
def actionKeyFor (action : String) : Option String :=
  (ACTION_KEYS.find? (fun kv => decide (kv.1 = action))).map (fun kv => kv.2)

/-- JSON body of a responder reply (only the fields the sources set). -/
inductive HttpBody
  | okBody (session action : String)
  | errorBody (message : String)
  | healthBody
deriving DecidableEq

/-- An HTTP reply: status code and JSON body. -/
structure HttpResponse where
  status : Nat
  body : HttpBody
deriving DecidableEq

/-- External collaborators of the responder: `session_exists` (tmux
`has-session`) and `send_tmux_keys` (tmux `send-keys`, `true` = the
keystroke was forwarded successfully). -/
structure RespondEnv where
  sessionExists : String → Bool
  sendKeysOk : String → String → Bool

/-- Combined mutable state and reply of one `do_GET` call. -/
structure GetOutcome where
  resp : HttpResponse
  rl : RLState
  tst : TokenState
deriving DecidableEq

/-- `ResponderHandler.handle_respond(params)` (responder.py lines 304-339).
`tokenParam` is `params.get("token", [None])[0]`; `none` or the empty
string are both falsy in Python (`if not token`). -/
def handle_respond (env : RespondEnv) (dec : String → Option String)
    (sig : String → String) (tokenParam : Option String) (now : Nat)
    (tst : TokenState) : HttpResponse × TokenState :=
  match tokenParam with
  | none => (⟨400, .errorBody "Missing token"⟩, tst)
  | some token =>
    if token.data.isEmpty then (⟨400, .errorBody "Missing token"⟩, tst)
    else
      match validate_token dec sig token now tst with
      | (.err e, tst') => (⟨403, .errorBody e⟩, tst')
      | (.ok session action, tst') =>
        if !env.sessionExists session then
          (⟨404, .errorBody ("Session not found: " ++ session)⟩, tst')
        else
          match actionKeyFor action with
          | none => (⟨400, .errorBody ("Unknown action: " ++ action)⟩, tst')
          | some keys =>
            if env.sendKeysOk session keys then
              (⟨200, .okBody session action⟩, tst')
            else
              (⟨500, .errorBody "Failed to send keys to tmux"⟩, tst')

/-- `ResponderHandler.do_GET` (responder.py lines 275-302): `/health` is
exempt from rate limiting; every other path is rate limited before any
other work; `/respond` is then handled, anything else is 404. -/
def do_GET (env : RespondEnv) (dec : String → Option String)
    (sig : String → String) (path : String) (tokenParam : Option String)
    (clientIp : String) (now : Nat) (rl : RLState) (tst : TokenState) : GetOutcome :=
  if path = "/health" then ⟨⟨200, .healthBody⟩, rl, tst⟩
  else
    let rc := check_rate_limit clientIp (Int.ofNat now) rl
    if !rc.1 then ⟨⟨429, .errorBody "Too many requests"⟩, rc.2, tst⟩
    else if path = "/respond" then
      let hr := handle_respond env dec sig tokenParam now tst
      ⟨hr.1, rc.2, hr.2⟩
    else ⟨⟨404, .errorBody "Not found"⟩, rc.2, tst⟩

/-! ## Webhook URL validation (`src/hooks/notify.py` lines 86-156) -/

/-- `_PRIVATE_IP_PREFIXES` (notify.py lines 86-96). -/
def _PRIVATE_IP_PREFIXES : List String :=
  ["10.",
   "172.16.", "172.17.", "172.18.", "172.19.",
   "172.20.", "172.21.", "172.22.", "172.23.",
   "172.24.", "172.25.", "172.26.", "172.27.",
   "172.28.", "172.29.", "172.30.", "172.31.",
   "192.168.",
   "127.",
   "169.254.",
   "0."]

/-- `_PRIVATE_HOSTNAMES` (notify.py lines 98-104). -/
def _PRIVATE_HOSTNAMES : List String :=
  ["localhost", "localhost.localdomain", "local", "internal", "intranet"]

/-- Find the first `"://"` in a character list and return the parts before
and after it (the scheme/rest split that `urllib.parse.urlparse` performs on
the URLs the sources handle). -/
def splitSchemeRest : List Char → Option (List Char × List Char)
  | ':' :: '/' :: '/' :: rest => some ([], rest)
  | [] => none
  | c :: cs => (splitSchemeRest cs).map (fun p => (c :: p.1, p.2))

/-- `urlparse(url).scheme` (lower-cased; empty when the URL has no
`"://"`). -/
def urlScheme (url : String) : String :=
  match splitSchemeRest url.data with
  | some p => pyLower ⟨p.1⟩
  | none => ""

/-- `urlparse(url).hostname`: the authority up to the first `/`, with any
user-info (`…@`) and port (`:…`) stripped, lower-cased; `none` when it is
empty.  (IPv6 bracket syntax is not used by the sources.) -/
def urlHostname? (url : String) : Option String :=
  match splitSchemeRest url.data with
  | none => none
  | some p =>
    let netloc := p.2.takeWhile (fun c => decide (c ≠ '/'))
    let afterAt := (splitOnChar '@' netloc).getLastD []
    let host := afterAt.takeWhile (fun c => decide (c ≠ ':'))
    if host.isEmpty then none else some (pyLower ⟨host⟩)

/-- `validate_webhook_url(url)` (notify.py lines 107-156).  `resolve`
abstracts `socket.getaddrinfo`, returning the list of resolved IP strings
(`none` = `socket.gaierror`, which the source lets pass). -/
def validate_webhook_url (resolve : String → Option (List String))
    (url : String) : Bool × String :=
  let scheme := urlScheme url
  if scheme ≠ "http" ∧ scheme ≠ "https" then
    (false, "Invalid URL scheme: " ++ scheme ++ ". Only http/https allowed.")
  else
    match urlHostname? url with
    | none => (false, "URL missing hostname")
    | some hostname =>
      let hostnameLower := pyLower hostname
      if _PRIVATE_HOSTNAMES.any (fun ph =>
          decide (hostnameLower = ph) || pyEndswith hostnameLower ("." ++ ph)) then
        (false, "Webhook URL points to internal hostname: " ++ hostname)
      else
        match resolve hostname with
        | none => (true, "")
        | some ips =>
          match ips.find? (fun ip => _PRIVATE_IP_PREFIXES.any (fun p => pyStartswith ip p)) with
          | some ip => (false, "Webhook URL resolves to private IP: " ++ ip)
          | none => (true, "")

/-! ## Notification dispatch (`src/hooks/notify.py` lines 159-565) -/

/-- The `notifications:` section of the loaded config, as consumed by
`send_notification` / `send_interactive_notification`.  Python's falsy
check on a missing / empty credential is modelled by `none`. -/
structure NotifyConfig where
  enabled : Bool
  pushoverUserKey : Option String
  pushoverApiToken : Option String
  webhookUrl : Option String
deriving DecidableEq

/-- External inputs of the dispatcher: environment variables, the network
results of the two provider POSTs, DNS resolution for the SSRF guard, and
the discovered responder host (Tailscale lookup). -/
structure NotifyEnv where
  envPushoverUserKey : Option String
  envPushoverApiToken : Option String
  envWebhookUrl : Option String
  pushoverSendOk : Bool
  webhookSendOk : Bool
  resolve : String → Option (List String)
  discoveredHost : Option String

/-- Observable side effects of a dispatch call (URL validations, token
issuances, provider contacts), in program order. -/
inductive NotifyEffect
  | validateUrl (url : String)
  | issueToken (session action : String)
  | contactProvider (provider : String)
deriving DecidableEq

/-- `send_webhook(url, ...)` (notify.py lines 159-280): validate the URL
(SSRF guard), then POST; payload shaping is a pure formatting concern and
is not modelled. -/
def send_webhook (env : NotifyEnv) (url : String) : Bool × List NotifyEffect :=
  let v := validate_webhook_url env.resolve url
  if !v.1 then (false, [.validateUrl url])
  else (env.webhookSendOk, [.validateUrl url, .contactProvider "webhook"])

/-- `send_pushover(...)` (notify.py lines 283-349): POST to the Pushover
API. -/
def send_pushover (env : NotifyEnv) : Bool × List NotifyEffect :=
  (env.pushoverSendOk, [.contactProvider "pushover"])

/-- `send_notification(...)` (notify.py lines 532-565): silently succeed
when notifications are disabled; otherwise prefer Pushover, then fall back
to a webhook URL (argument, `RC_WEBHOOK_URL`, then config). -/
def send_notification (config : NotifyConfig) (env : NotifyEnv)
    (webhookUrlArg : Option String) : Bool × List NotifyEffect :=
  if !config.enabled then (true, [])
  else
    let pushoverUser := env.envPushoverUserKey.orElse (fun _ => config.pushoverUserKey)
    let pushoverToken := env.envPushoverApiToken.orElse (fun _ => config.pushoverApiToken)
    match pushoverUser, pushoverToken with
    | some _, some _ => send_pushover env
    | _, _ =>
      match (webhookUrlArg.orElse (fun _ => env.envWebhookUrl)).orElse (fun _ => config.webhookUrl) with
      | none => (false, [])
      | some url => send_webhook env url

/-- `send_interactive_notification(...)` (notify.py lines 404-529): succeed
silently when disabled; require Pushover credentials; require a reachable
responder host (argument, config, or Tailscale discovery — hard failure if
none); then issue the `yes`/`always`/`no` tokens and POST to Pushover. -/
def send_interactive_notification (config : NotifyConfig) (env : NotifyEnv)
    (session : String) (responderHostArg : Option String) : Bool × List NotifyEffect :=
  if !config.enabled then (true, [])
  else
    let pushoverUser := env.envPushoverUserKey.orElse (fun _ => config.pushoverUserKey)
    let pushoverToken := env.envPushoverApiToken.orElse (fun _ => config.pushoverApiToken)
    match pushoverUser, pushoverToken with
    | some _, some _ =>
      match responderHostArg.orElse (fun _ => env.discoveredHost) with
      | none => (false, [])
      | some _ =>
        (env.pushoverSendOk,
         [.issueToken session "yes", .issueToken session "always",
          .issueToken session "no", .contactProvider "pushover"])
    | _, _ => (false, [])

/-! ## Prompt Classifier (`src/hooks/prompt_parser.py`) -/

/-- The `PermissionPrompt` dataclass (prompt_parser.py lines 29-36). -/
structure PermissionPrompt where
  tool : String
  action : String
  description : String
  options : List Char
  rawPrompt : String
deriving DecidableEq

/-- One entry of `PERMISSION_PATTERNS` (prompt_parser.py lines 41-132): a
regex searched against the text (abstracted: `search` returns the match's
groups, `none` when the pattern does not match) paired with a builder that
turns the match into a `PermissionPrompt` (`none` models the builder
raising, which the source catches and treats as "try the next pattern"). -/
structure PromptPattern where
  search : String → Option (List String)
  build : List String → Option PermissionPrompt

/-- The ordered first-match-wins scan inside `parse_permission_prompt`. -/
def parsePromptScan (text : String) : List PromptPattern → Option PermissionPrompt
  | [] => none
  | p :: ps =>
    match p.search text with
    | some m =>
      match p.build m with
      | some r => some r
      | none => parsePromptScan text ps
    | none => parsePromptScan text ps

/-- `parse_permission_prompt(text)` (prompt_parser.py lines 148-171): strip
the text, return `None` when empty, otherwise try each pattern in order;
a builder exception means "continue"; no match means `None`. -/
def parse_permission_prompt (patterns : List PromptPattern) (text : String) :
    Option PermissionPrompt :=
  let t := pyStrip text
  if t.data.isEmpty then none
  else parsePromptScan t patterns

/-- The `search_lines` slice of `extract_prompt_from_output`
(prompt_parser.py lines 204-207): last `linesToCheck` lines of the stripped
output. -/
def extractSearchLines (output : String) (linesToCheck : Nat) : List String :=
  let lines := pySplit '\n' (pyStrip output)
  if lines.length > linesToCheck then lines.drop (lines.length - linesToCheck) else lines

/-- The `combined` string of `extract_prompt_from_output` (line 216): the
last five search lines joined with spaces. -/
def extractCombined (output : String) (linesToCheck : Nat) : String :=
  let sl := extractSearchLines output linesToCheck
  pyJoin " " (sl.drop (sl.length - 5))

/-- `extract_prompt_from_output(output, lines_to_check)` (prompt_parser.py
lines 189-224).  `isPrompt` abstracts `is_permission_prompt` (the
`PERMISSION_INDICATORS` regex scan); `findSegment` abstracts the
`".{0,200}" + pattern` search over the combined tail (returning the matched
segment). -/
def extract_prompt_from_output (isPrompt : String → Bool)
    (findSegment : String → Option String) (output : String)
    (linesToCheck : Nat) : Option String :=
  if output.data.isEmpty then none
  else
    let searchLines := extractSearchLines output linesToCheck
    match searchLines.reverse.find? (fun line =>
        !(pyStrip line).data.isEmpty && isPrompt (pyStrip line)) with
    | some line => some (pyStrip line)
    | none =>
      let combined := extractCombined output linesToCheck
      if isPrompt combined then findSegment combined else none

/-- `format_notification_message(prompt, max_length)` (prompt_parser.py
lines 253-274). -/
def format_notification_message (prompt : PermissionPrompt) (maxLength : Nat) : String :=
  let action := if prompt.action.data.length > maxLength - 50
                then ⟨prompt.action.data.take (maxLength - 53)⟩ ++ "..."
                else prompt.action
  if prompt.tool ≠ "" ∧ prompt.tool ≠ "Unknown"
  then prompt.tool ++ ": " ++ action
  else action

/-! ## Session Watcher (`src/hooks/watch.py`) -/

/-- `IDLE_THRESHOLD = 300` (watch.py line 50). -/
def IDLE_THRESHOLD : Nat := 300

/-- `PROMPT_NOTIFY_DELAY = 120` (watch.py line 51). -/
def PROMPT_NOTIFY_DELAY : Nat := 120

/-- `RATE_LIMIT_DEBOUNCE = 60` (watch.py line 52). -/
def RATE_LIMIT_DEBOUNCE : Nat := 60

/-- The `SessionState` class (watch.py lines 93-109). -/
structure WatcherState where
  name : String
  lastContent : String
  lastChange : Nat
  lastNotification : Nat
  isWaiting : Bool
  notifiedWaiting : Bool
  lastPrompt : Option String
  notifiedPrompt : Option String
  promptDetectedAt : Option Nat
  rateLimitDetectedAt : Option Nat
  rateLimitNotified : Bool
  rateLimitCount : Nat
deriving DecidableEq

/-- The notification dict returned by `check_session` (only the fields the
sources set). -/
inductive WatchNotification
  | permission (title message : String) (parsed : PermissionPrompt)
  | rateLimit (title message currentAccount : String)
      (availableAccounts : List String) (mode : String)
  | waiting (title message : String)
  | idle (title message : String)
deriving DecidableEq

/-- External collaborators of one `check_session` call: the two prompt
classifiers, the three activity classifiers, and the account lookups used
to fill the rate-limit notification. -/
structure WatchEnv where
  extractPrompt : String → Option String
  parsePrompt : String → Option PermissionPrompt
  isRateLimited : String → Bool
  isWaitingForInput : String → Bool
  isActivelyWorking : String → Bool
  containerAccount : Option String
  availableAccounts : List String
  rateLimitMode : String

/-- The generic waiting / idle tail of `check_session` (watch.py lines
431-478), including the final `notified_waiting` reset. -/
def checkWaitingSection (env : WatchEnv) (st : WatcherState) (now : Nat)
    (content : String) : Option WatchNotification × WatcherState :=
  let waiting := env.isWaitingForInput content
  let working := env.isActivelyWorking content
  let st1 := { st with isWaiting := waiting && !working }
  let idleTime := now - st1.lastChange
  if st1.isWaiting = true ∧ st1.notifiedWaiting = false then
    if now - st1.lastNotification > 60 then
      (some (.waiting "Claude Waiting" ("Session " ++ st1.name ++ " is waiting for input")),
       { st1 with notifiedWaiting := true, lastNotification := now })
    else (none, st1)
  else if idleTime > IDLE_THRESHOLD ∧ st1.isWaiting = false then
    if now - st1.lastNotification > IDLE_THRESHOLD then
      (some (.idle "Session Idle"
          ("Session " ++ st1.name ++ " has been idle for " ++ natRepr (idleTime / 60) ++ " minutes")),
       { st1 with lastNotification := now, notifiedWaiting := false })
    else (none, { st1 with notifiedWaiting := false })
  else if st1.isWaiting = false then (none, { st1 with notifiedWaiting := false })
  else (none, st1)

/-- The rate-limit section of `check_session` (watch.py lines 397-429),
falling through to `checkWaitingSection` when nothing is emitted. -/
def checkRateSection (env : WatchEnv) (st : WatcherState) (now : Nat)
    (content : String) : Option WatchNotification × WatcherState :=
  if env.isRateLimited content then
    let st1 := { st with rateLimitCount := st.rateLimitCount + 1 }
    let st2 := match st1.rateLimitDetectedAt with
               | none => { st1 with rateLimitDetectedAt := some now }
               | some _ => st1
    let duration := now - (st2.rateLimitDetectedAt.getD now)
    if duration ≥ RATE_LIMIT_DEBOUNCE ∧ st2.rateLimitNotified = false then
      let currentAccount := env.containerAccount.getD "default"
      let otherAccounts := env.availableAccounts.filter (fun a => decide (a ≠ currentAccount))
      (some (.rateLimit "Rate Limit Detected"
          ("Session " ++ st2.name ++ " hit rate limit on account '" ++ currentAccount ++ "'")
          currentAccount otherAccounts env.rateLimitMode),
       { st2 with rateLimitNotified := true, lastNotification := now })
    else checkWaitingSection env st2 now content
  else
    checkWaitingSection env
      { st with rateLimitDetectedAt := none, rateLimitNotified := false, rateLimitCount := 0 }
      now content

/-- The permission-prompt section of `check_session` (watch.py lines
362-395), falling through to `checkRateSection` when no permission
notification is emitted.  Its `st` argument is the state after the
content-change update. -/
def checkPromptSection (env : WatchEnv) (st : WatcherState) (now : Nat)
    (content : String) : Option WatchNotification × WatcherState :=
  match env.extractPrompt content with
  | some promptText =>
    let st2 := if st.lastPrompt ≠ some promptText
               then { st with lastPrompt := some promptText, promptDetectedAt := some now }
               else st
    if st2.notifiedPrompt ≠ some promptText then
      let idleOnPrompt := now - (st2.promptDetectedAt.getD now)
      if idleOnPrompt ≥ PROMPT_NOTIFY_DELAY ∧ now - st2.lastNotification > 30 then
        match env.parsePrompt promptText with
        | some parsed =>
          (some (.permission (parsed.tool ++ " Permission")
              (format_notification_message parsed 200) parsed),
           { st2 with notifiedPrompt := some promptText, lastNotification := now,
                      notifiedWaiting := true })
        | none => checkRateSection env st2 now content
      else checkRateSection env st2 now content
    else checkRateSection env st2 now content
  | none =>
    checkRateSection env
      { st with lastPrompt := none, notifiedPrompt := none, promptDetectedAt := none }
      now content

/-- `check_session(state)` (watch.py lines 348-478).  `content?` is the
result of `capture_pane` (`none` = capture failure, which returns
immediately).  Returns the notification (if any) and the updated state. -/
def check_session (env : WatchEnv) (st : WatcherState) (now : Nat)
    (content? : Option String) : Option WatchNotification × WatcherState :=
  match content? with
  | none => (none, st)
  | some content =>
    let st1 := if content ≠ st.lastContent
               then { st with lastContent := content, lastChange := now } else st
    checkPromptSection env st1 now content

/-! ## String and decimal lemmas -/

theorem strMk_data (s : String) : (⟨s.data⟩ : String) = s := rfl

theorem splitOnChar_ne_nil (sep : Char) (l : List Char) : splitOnChar sep l ≠ [] := by
  induction l with
  | nil => simp [splitOnChar]
  | cons c cs ih =>
    simp only [splitOnChar]
    cases h : splitOnChar sep cs with
    | nil => exact absurd h ih
    | cons g gs => by_cases hc : c = sep <;> simp [hc]

theorem splitOnChar_no_sep (sep : Char) (l : List Char) (h : sep ∉ l) :
    splitOnChar sep l = [l] := by
  induction l with
  | nil => rfl
  | cons c cs ih =>
    simp only [List.mem_cons, not_or] at h
    simp only [splitOnChar, ih h.2]
    have : ¬c = sep := fun hc => h.1 (hc ▸ rfl)
    simp [this]

theorem splitOnChar_append (sep : Char) (a rest : List Char) (h : sep ∉ a) :
    splitOnChar sep (a ++ sep :: rest) = a :: splitOnChar sep rest := by
  induction a with
  | nil =>
    simp only [List.nil_append, splitOnChar]
    cases hs : splitOnChar sep rest with
    | nil => exact absurd hs (splitOnChar_ne_nil sep rest)
    | cons g gs => simp
  | cons c cs ih =>
    simp only [List.mem_cons, not_or] at h
    have hne : ¬c = sep := fun hc => h.1 (hc ▸ rfl)
    simp only [List.cons_append, splitOnChar, List.append_eq]
    rw [ih h.2]
    simp [hne]

theorem pySplit_token4 (s a t g : String)
    (hs : ':' ∉ s.data) (ha : ':' ∉ a.data) (ht : ':' ∉ t.data) (hg : ':' ∉ g.data) :
    pySplit ':' (s ++ ":" ++ a ++ ":" ++ t ++ ":" ++ g) = [s, a, t, g] := by
  have hdata : (s ++ ":" ++ a ++ ":" ++ t ++ ":" ++ g).data
      = s.data ++ ':' :: (a.data ++ ':' :: (t.data ++ ':' :: g.data)) := by
    simp [String.data_append]
  rw [pySplit, hdata, splitOnChar_append _ _ _ hs, splitOnChar_append _ _ _ ha,
    splitOnChar_append _ _ _ ht, splitOnChar_no_sep _ _ hg]
  simp [strMk_data]

theorem charDigit_digitChar (d : Nat) (h : d < 10) :
    charDigit? (digitChar d) = some d := by
  interval_cases d <;> rfl

theorem mem_natToRevDigits (fuel n : Nat) (c : Char)
    (hc : c ∈ natToRevDigits fuel n) : ∃ d, d < 10 ∧ c = digitChar d := by
  induction fuel generalizing n with
  | zero => simp [natToRevDigits] at hc
  | succ fuel ih =>
    simp only [natToRevDigits] at hc
    split at hc
    · next h => simp at hc; exact ⟨n, h, hc⟩
    · rcases List.mem_cons.mp hc with h | h
      · exact ⟨n % 10, Nat.mod_lt _ (by omega), h⟩
      · exact ih _ h

theorem natRepr_no_colon (n : Nat) : ':' ∉ (natRepr n).data := by
  intro hmem
  have : ':' ∈ natToRevDigits (n + 1) n := by
    simpa [natRepr, natReprChars] using hmem
  obtain ⟨d, hd, hcd⟩ := mem_natToRevDigits _ _ _ this
  revert hcd
  interval_cases d <;> decide

theorem parseDigitsAux_append (l₁ l₂ : List Char) (acc : Nat) :
    parseDigitsAux acc (l₁ ++ l₂)
      = match parseDigitsAux acc l₁ with
        | some a => parseDigitsAux a l₂
        | none => none := by
  induction l₁ generalizing acc with
  | nil => simp [parseDigitsAux]
  | cons c cs ih =>
    simp only [List.cons_append, parseDigitsAux]
    cases charDigit? c with
    | none => rfl
    | some d => simpa using ih (acc * 10 + d)

theorem parse_natToRevDigits (fuel : Nat) : ∀ n acc, n < fuel →
    parseDigitsAux acc (natToRevDigits fuel n).reverse
      = some (acc * 10 ^ (natToRevDigits fuel n).length + n) := by
  induction fuel with
  | zero => intro n acc h; omega
  | succ fuel ih =>
    intro n acc h
    by_cases h10 : n < 10
    · simp only [natToRevDigits, if_pos h10, List.reverse_singleton, parseDigitsAux,
        charDigit_digitChar n h10, List.length_singleton]
      simp [parseDigitsAux]
    · have hdiv : n / 10 < fuel := by
        have h1 : n / 10 < n := Nat.div_lt_self (by omega) (by omega)
        omega
      simp only [natToRevDigits, if_neg h10, List.reverse_cons, List.length_cons]
      rw [parseDigitsAux_append, ih (n / 10) acc hdiv]
      simp only [parseDigitsAux, charDigit_digitChar (n % 10) (Nat.mod_lt _ (by omega))]
      have : (acc * 10 ^ (natToRevDigits fuel (n / 10)).length + n / 10) * 10 + n % 10
          = acc * 10 ^ ((natToRevDigits fuel (n / 10)).length + 1) + n := by
        rw [pow_succ]
        have := Nat.div_add_mod n 10
        ring_nf
        omega
      rw [this]

theorem natToRevDigits_ne_nil (fuel n : Nat) (h : 0 < fuel) :
    natToRevDigits fuel n ≠ [] := by
  cases fuel with
  | zero => omega
  | succ fuel => simp only [natToRevDigits]; split <;> simp

theorem natParseChars_cons (c : Char) (cs : List Char) :
    natParseChars? (c :: cs) = parseDigitsAux 0 (c :: cs) := rfl

theorem natParse_natRepr (n : Nat) : natParse? (natRepr n) = some n := by
  have hne : natToRevDigits (n + 1) n ≠ [] := natToRevDigits_ne_nil _ _ (by omega)
  have hrepr : natParse? (natRepr n)
      = natParseChars? (natToRevDigits (n + 1) n).reverse := rfl
  rw [hrepr]
  cases hd : (natToRevDigits (n + 1) n).reverse with
  | nil => exact absurd (List.reverse_eq_nil_iff.mp hd) hne
  | cons x xs =>
    rw [natParseChars_cons, ← hd, parse_natToRevDigits (n + 1) n 0 (by omega)]
    simp

/-! ## Token Authority theorems -/

theorem mem_addUsed (t : String) (l : List String) : t ∈ addUsed t l := by
  unfold addUsed
  split
  · assumption
  · exact List.mem_cons_self t l

/-- C1 (amended).  For every session `s` and action `a` that do not contain
the `':'` field separator, validating a freshly issued token at issuance
time (same signing function, token string not already consumed) succeeds
and returns exactly `(s, a)`, and an immediately following second
validation of the same token string fails with "Token already used". -/
theorem c1_token_single_use (enc : String → String) (dec : String → Option String)
    (sig : String → String) (s a : String) (ts : Nat) (st : TokenState)
    (hdec : ∀ x, dec (enc x) = some x)
    (hs : ':' ∉ s.data) (ha : ':' ∉ a.data)
    (hsig : ':' ∉ (sig (s ++ ":" ++ a ++ ":" ++ natRepr ts)).data)
    (hfresh : generate_token enc sig s a ts ∉ st.usedTokens) :
    (validate_token dec sig (generate_token enc sig s a ts) ts st).1 = .ok s a ∧
    (validate_token dec sig (generate_token enc sig s a ts) ts
        (validate_token dec sig (generate_token enc sig s a ts) ts st).2).1
      = .err "Token already used" := by
  have hsplit := pySplit_token4 s a (natRepr ts)
    (sig (s ++ ":" ++ a ++ ":" ++ natRepr ts)) hs ha (natRepr_no_colon ts) hsig
  have hmem : generate_token enc sig s a ts
      ∉ (if ts - st.lastCleanup > USED_TOKENS_CLEANUP_INTERVAL
         then (⟨[], ts⟩ : TokenState) else st).usedTokens := by
    split
    · simp
    · exact hfresh
  have h1 : validate_token dec sig (generate_token enc sig s a ts) ts st
      = (.ok s a,
         { (if ts - st.lastCleanup > USED_TOKENS_CLEANUP_INTERVAL
            then (⟨[], ts⟩ : TokenState) else st) with
           usedTokens := addUsed (generate_token enc sig s a ts)
             (if ts - st.lastCleanup > USED_TOKENS_CLEANUP_INTERVAL
              then (⟨[], ts⟩ : TokenState) else st).usedTokens }) := by
    rw [validate_token, generate_token]
    simp only [hdec, hsplit, natParse_natRepr]
    rw [if_neg (show ¬(ts - ts > TOKEN_EXPIRY_SECONDS) by simp)]
    rw [if_neg (by simpa [generate_token] using hmem)]
    rw [if_neg (fun h => h rfl)]
  refine ⟨by rw [h1], ?_⟩
  rw [h1]
  have hcl2 : ¬(ts - ({ (if ts - st.lastCleanup > USED_TOKENS_CLEANUP_INTERVAL
            then (⟨[], ts⟩ : TokenState) else st) with
           usedTokens := addUsed (generate_token enc sig s a ts)
             (if ts - st.lastCleanup > USED_TOKENS_CLEANUP_INTERVAL
              then (⟨[], ts⟩ : TokenState) else st).usedTokens } : TokenState).lastCleanup
        > USED_TOKENS_CLEANUP_INTERVAL) := by
    split
    · simp
    · next h => simpa using h
  rw [validate_token, generate_token]
  simp only [hdec, hsplit, natParse_natRepr]
  rw [if_neg hcl2, if_neg (show ¬(ts - ts > TOKEN_EXPIRY_SECONDS) by simp)]
  rw [if_pos (by simpa [generate_token] using
        mem_addUsed (generate_token enc sig s a ts) _)]

/-- C1 counterexample: for the session name `"a:b"` (which contains the
token format's field separator) and action `"yes"`, validating the freshly
issued token immediately after issuance does not return `(s, a)` — it fails
with "Invalid token format", because the serialized payload splits into
five fields instead of four. -/
theorem c1_colon_counterexample :
    (validate_token Option.some (fun _ => "SIG")
        (generate_token id (fun _ => "SIG") "a:b" "yes" 1000) 1000
        ⟨[], 1000⟩).1 = .err "Invalid token format" := by
  decide

/-- C1 witness: the amended round-trip theorem applied at a concrete
colon-free session/action. -/
theorem c1_token_single_use_witness :
    (validate_token Option.some (fun _ => "SIG")
        (generate_token id (fun _ => "SIG") "rc-demo" "yes" 1000) 1000 ⟨[], 1000⟩).1
      = .ok "rc-demo" "yes" ∧
    (validate_token Option.some (fun _ => "SIG")
        (generate_token id (fun _ => "SIG") "rc-demo" "yes" 1000) 1000
        (validate_token Option.some (fun _ => "SIG")
          (generate_token id (fun _ => "SIG") "rc-demo" "yes" 1000) 1000
          ⟨[], 1000⟩).2).1
      = .err "Token already used" :=
  c1_token_single_use id Option.some (fun _ => "SIG") "rc-demo" "yes" 1000
    ⟨[], 1000⟩ (fun _ => rfl) (by decide) (by decide) (by decide) (by decide)

/-- C2.  Every token whose decoded payload has four fields and carries a
timestamp more than `TOKEN_EXPIRY_SECONDS` in the past at validation time
fails with "Token expired", for every signature function and every
used-token state (in particular even when the embedded signature is the
correct keyed hash, as the expiry check precedes signature verification). -/
theorem c2_expired_token (dec : String → Option String) (sig : String → String)
    (token d s a tsStr g : String) (ts now : Nat) (st : TokenState)
    (hdec : dec token = some d)
    (hsplit : pySplit ':' d = [s, a, tsStr, g])
    (hts : natParse? tsStr = some ts)
    (hexp : now - ts > TOKEN_EXPIRY_SECONDS) :
    (validate_token dec sig token now st).1 = .err "Token expired" := by
  rw [validate_token]
  simp only [hdec, hsplit, hts]
  rw [if_pos hexp]

/-- C2 witness: a token generated (with its correct signature) 700 seconds
before validation time is rejected as expired. -/
theorem c2_expired_token_witness :
    (validate_token Option.some (fun _ => "SIG")
        (generate_token id (fun _ => "SIG") "s" "yes" 100) 800 ⟨[], 800⟩).1
      = .err "Token expired" :=
  c2_expired_token Option.some (fun _ => "SIG")
    (generate_token id (fun _ => "SIG") "s" "yes" 100)
    "s:yes:100:SIG" "s" "yes" "100" "SIG" 100 800 ⟨[], 800⟩
    (by decide) (by decide) (by decide) (by decide)

/-- C9 counterexample: when the ten-minute wholesale sweep fires at the
start of a call, a failing validation ("Invalid token format" here) does
not leave the used-token set as it was — it empties it.  State before:
`usedTokens = ["x"]`; after the failing call: `[]`. -/
theorem c9_sweep_counterexample :
    (validate_token Option.some (fun _ => "SIG") "###" 1000 ⟨["x"], 0⟩).1
      = .err "Invalid token format" ∧
    (validate_token Option.some (fun _ => "SIG") "###" 1000 ⟨["x"], 0⟩).2.usedTokens
      = [] := by
  constructor <;> decide

/-- C9 (amended).  Whenever the periodic wholesale sweep does not fire
(`now - lastCleanup ≤ USED_TOKENS_CLEANUP_INTERVAL`), token validation is
atomic: every failing validation (decode error, wrong field count,
timestamp parse failure, expiry, replay, signature mismatch) leaves the
token-authority state exactly as it was, and a successful validation adds
exactly the validated token string to the used set. -/
theorem c9_validate_atomic (dec : String → Option String) (sig : String → String)
    (token : String) (now : Nat) (st : TokenState)
    (hcl : ¬(now - st.lastCleanup > USED_TOKENS_CLEANUP_INTERVAL)) :
    ((∃ e, (validate_token dec sig token now st).1 = .err e) →
      (validate_token dec sig token now st).2 = st) ∧
    (∀ s a, (validate_token dec sig token now st).1 = .ok s a →
      (validate_token dec sig token now st).2
        = { st with usedTokens := addUsed token st.usedTokens }) := by
  have key : ((validate_token dec sig token now st).2 = st
        ∧ ∀ s a, (validate_token dec sig token now st).1 = .ok s a → False)
      ∨ ((validate_token dec sig token now st).2
            = { st with usedTokens := addUsed token st.usedTokens }
        ∧ ∀ e, (validate_token dec sig token now st).1 = .err e → False) := by
    rw [validate_token, if_neg hcl]
    split
    · exact Or.inl ⟨rfl, fun s a h => TokenResult.noConfusion h⟩
    · split
      · split
        · exact Or.inl ⟨rfl, fun s a h => TokenResult.noConfusion h⟩
        · split
          · exact Or.inl ⟨rfl, fun s a h => TokenResult.noConfusion h⟩
          · split
            · exact Or.inl ⟨rfl, fun s a h => TokenResult.noConfusion h⟩
            · split
              · exact Or.inl ⟨rfl, fun s a h => TokenResult.noConfusion h⟩
              · exact Or.inr ⟨rfl, fun e h => TokenResult.noConfusion h⟩
      · exact Or.inl ⟨rfl, fun s a h => TokenResult.noConfusion h⟩
  rcases key with ⟨h2, himp⟩ | ⟨h2, himp⟩
  · exact ⟨fun _ => h2, fun s a h => (himp s a h).elim⟩
  · exact ⟨fun he => (himp he.choose he.choose_spec).elim, fun s a _ => h2⟩

/-- C9 witness: with no sweep pending, a replayed token fails and the state
is untouched. -/
theorem c9_validate_atomic_witness :
    (validate_token Option.some (fun _ => "SIG") "s:yes:100:SIG" 200
        ⟨["s:yes:100:SIG"], 200⟩).1 = .err "Token already used" ∧
    (validate_token Option.some (fun _ => "SIG") "s:yes:100:SIG" 200
        ⟨["s:yes:100:SIG"], 200⟩).2 = ⟨["s:yes:100:SIG"], 200⟩ := by
  have h := c9_validate_atomic Option.some (fun _ => "SIG") "s:yes:100:SIG" 200
    ⟨["s:yes:100:SIG"], 200⟩ (by decide)
  exact ⟨by decide, h.1 ⟨"Token already used", by decide⟩⟩

/-! ## Rate limiter theorems -/

theorem rlLookup_not_mem (ip : String) (tr : List (String × List Int))
    (h : ip ∉ tr.map Prod.fst) : rlLookup ip tr = [] := by
  induction tr with
  | nil => rfl
  | cons e rest ih =>
    simp only [List.map_cons, List.mem_cons, not_or] at h
    rw [rlLookup, if_neg (fun hk => h.1 hk.symm)]
    exact ih h.2

theorem mem_keys_rlCleanup (ip : String) (now : Int) (tr : List (String × List Int))
    (h : ip ∈ (rlCleanup now tr).map Prod.fst) : ip ∈ tr.map Prod.fst := by
  obtain ⟨e, he, rfl⟩ := List.mem_map.mp h
  simp only [rlCleanup, List.mem_filter, List.mem_map] at he
  obtain ⟨⟨e', he', rfl⟩, _⟩ := he
  simpa using List.mem_map_of_mem Prod.fst he'

theorem rlLookup_rlCleanup (ip : String) (now : Int) (tr : List (String × List Int))
    (hnd : (tr.map Prod.fst).Nodup) :
    rlLookup ip (rlCleanup now tr)
      = (rlLookup ip tr).filter (fun t => decide (now - RATE_LIMIT_WINDOW * 2 < t)) := by
  induction tr with
  | nil => rfl
  | cons e rest ih =>
    obtain ⟨k, v⟩ := e
    simp only [List.map_cons, List.nodup_cons] at hnd
    by_cases hk : k = ip
    · rw [hk] at hnd ⊢
      rw [show rlLookup ip ((ip, v) :: rest) = v from if_pos rfl]
      simp only [rlCleanup, List.map_cons, List.filter_cons]
      by_cases hemp : (!(v.filter (fun t => decide (now - RATE_LIMIT_WINDOW * 2 < t))).isEmpty) = true
      · rw [if_pos hemp]
        exact if_pos rfl
      · rw [if_neg hemp]
        have hv : v.filter (fun t => decide (now - RATE_LIMIT_WINDOW * 2 < t)) = [] := by
          simpa [List.isEmpty_iff] using hemp
        rw [hv]
        have hnm : ip ∉ (rlCleanup now rest).map Prod.fst :=
          fun hmem => hnd.1 (mem_keys_rlCleanup ip now rest hmem)
        exact rlLookup_not_mem ip _ hnm
    · rw [show rlLookup ip ((k, v) :: rest) = rlLookup ip rest from if_neg hk]
      simp only [rlCleanup, List.map_cons, List.filter_cons]
      by_cases hemp : (!(v.filter (fun t => decide (now - RATE_LIMIT_WINDOW * 2 < t))).isEmpty) = true
      · rw [if_pos hemp]
        rw [show rlLookup ip ((k, v.filter (fun t => decide (now - RATE_LIMIT_WINDOW * 2 < t)))
              :: (rest.map (fun e => (e.1, e.2.filter (fun t => decide (now - RATE_LIMIT_WINDOW * 2 < t))))).filter
                (fun e => !e.2.isEmpty))
            = rlLookup ip ((rest.map (fun e => (e.1, e.2.filter (fun t => decide (now - RATE_LIMIT_WINDOW * 2 < t))))).filter
                (fun e => !e.2.isEmpty)) from if_neg hk]
        exact ih hnd.2
      · rw [if_neg hemp]
        exact ih hnd.2

theorem filter_window_cleanup (now : Int) (l : List Int) :
    (l.filter (fun t => decide (now - RATE_LIMIT_WINDOW * 2 < t))).filter
        (fun t => decide (now - RATE_LIMIT_WINDOW < t))
      = l.filter (fun t => decide (now - RATE_LIMIT_WINDOW < t)) := by
  induction l with
  | nil => rfl
  | cons a l ih =>
    by_cases h2 : now - RATE_LIMIT_WINDOW * 2 < a
    · by_cases h1 : now - RATE_LIMIT_WINDOW < a <;>
        simp [List.filter_cons, h1, h2, ih]
    · have h1 : ¬(now - RATE_LIMIT_WINDOW < a) := by
        simp only [RATE_LIMIT_WINDOW] at *
        omega
      simp [List.filter_cons, h1, h2, ih]

theorem ite_allow_len (b : List Int) (x y : RLState) :
    ((if b.length ≥ RATE_LIMIT_REQUESTS then (false, x) else (true, y)) : Bool × RLState).1
        = true
      ↔ b.length < RATE_LIMIT_REQUESTS := by
  split
  · next hge =>
    constructor
    · intro h
      exact Bool.noConfusion h
    · intro h
      exact ((not_le.mpr h) hge).elim
  · next hlt =>
    constructor
    · intro _
      exact Nat.lt_of_not_le hlt
    · intro _
      rfl

/-- C4.  The responder's fixed-window rate limiter admits a request from an
address exactly when fewer than `RATE_LIMIT_REQUESTS` of that address's
recorded timestamps lie within the `RATE_LIMIT_WINDOW` ending now; from a
fresh state, eleven simultaneous requests see exactly the first ten
admitted and the eleventh rejected, and a request arriving after the window
has elapsed is admitted again. -/
theorem c4_rate_limit_quota :
    (∀ ip now (st : RLState), (st.tracker.map Prod.fst).Nodup →
      ((check_rate_limit ip now st).1 = true ↔
        ((rlLookup ip st.tracker).filter
            (fun t => decide (now - t < RATE_LIMIT_WINDOW))).length < RATE_LIMIT_REQUESTS))
    ∧ (rlRun "1.2.3.4" (List.replicate 11 1000) ⟨[], 1000⟩).1
        = List.replicate 10 true ++ [false]
    ∧ (check_rate_limit "1.2.3.4" 1061
        (rlRun "1.2.3.4" (List.replicate 11 1000) ⟨[], 1000⟩).2).1 = true := by
  refine ⟨?_, by decide, by decide⟩
  intro ip now st hnd
  have hpt : ∀ l : List Int,
      l.filter (fun t => decide (now - RATE_LIMIT_WINDOW < t))
        = l.filter (fun t => decide (now - t < RATE_LIMIT_WINDOW)) := by
    intro l
    refine List.filter_congr ?_
    intro a _
    exact decide_eq_decide.mpr (by omega)
  simp only [check_rate_limit]
  by_cases hcl : now - st.lastCleanup > 300
  · rw [if_pos hcl]
    simp only [rlLookup_rlCleanup ip now st.tracker hnd]
    simp only [filter_window_cleanup]
    simp only [hpt]
    exact ite_allow_len _ _ _
  · rw [if_neg hcl]
    simp only [hpt]
    exact ite_allow_len _ _ _

/-- C4 witness: the admission criterion applied at a concrete state with
one in-window timestamp. -/
theorem c4_rate_limit_quota_witness :
    (check_rate_limit "a" 50 ⟨[("a", [0])], 50⟩).1 = true :=
  (c4_rate_limit_quota.1 "a" 50 ⟨[("a", [0])], 50⟩ (by decide)).mpr (by decide)

/-! ## Action Responder theorems -/

/-- C3.  For every `GET /respond` request: a rate-limited caller gets 429
and the token authority's state is untouched (no validation work); an
admitted caller with a token that fails validation gets 403 carrying the
typed reason; a valid token whose session no longer exists gets 404; and a
valid token for an existing session has its action's mapped keystroke
forwarded, answering 200 when forwarding succeeds and 500 when it fails. -/
theorem c3_respond_dispatch (env : RespondEnv) (dec : String → Option String)
    (sig : String → String) (tokenParam : Option String) (clientIp : String)
    (now : Nat) (rl : RLState) (tst : TokenState) :
    ((check_rate_limit clientIp ((now : Int)) rl).1 = false →
      (do_GET env dec sig "/respond" tokenParam clientIp now rl tst).resp.status = 429 ∧
      (do_GET env dec sig "/respond" tokenParam clientIp now rl tst).tst = tst)
    ∧ (∀ token e tst2, (check_rate_limit clientIp ((now : Int)) rl).1 = true →
        tokenParam = some token → token.data.isEmpty = false →
        validate_token dec sig token now tst = (.err e, tst2) →
        (do_GET env dec sig "/respond" tokenParam clientIp now rl tst).resp
          = ⟨403, .errorBody e⟩)
    ∧ (∀ token s a tst2, (check_rate_limit clientIp ((now : Int)) rl).1 = true →
        tokenParam = some token → token.data.isEmpty = false →
        validate_token dec sig token now tst = (.ok s a, tst2) →
        env.sessionExists s = false →
        (do_GET env dec sig "/respond" tokenParam clientIp now rl tst).resp.status = 404)
    ∧ (∀ token s a tst2 k, (check_rate_limit clientIp ((now : Int)) rl).1 = true →
        tokenParam = some token → token.data.isEmpty = false →
        validate_token dec sig token now tst = (.ok s a, tst2) →
        env.sessionExists s = true →
        actionKeyFor a = some k →
        (env.sendKeysOk s k = true →
          (do_GET env dec sig "/respond" tokenParam clientIp now rl tst).resp
            = ⟨200, .okBody s a⟩) ∧
        (env.sendKeysOk s k = false →
          (do_GET env dec sig "/respond" tokenParam clientIp now rl tst).resp.status = 500)) := by
  refine ⟨?_, ?_, ?_, ?_⟩
  · intro h
    constructor <;> simp [do_GET, h]
  · intro token e tst2 hrl htok hne hval
    simp [do_GET, handle_respond, hrl, htok, hne, hval]
  · intro token s a tst2 hrl htok hne hval hsess
    simp [do_GET, handle_respond, hrl, htok, hne, hval, hsess]
  · intro token s a tst2 k hrl htok hne hval hsess hkey
    constructor <;> intro hsend <;>
      simp [do_GET, handle_respond, hrl, htok, hne, hval, hsess, hkey, hsend]

/-- C3 witness: the dispatch theorem applied at a rate-limited caller
(429, token state untouched) and at an admitted caller presenting a fresh
valid token for an existing session (200 with the forwarded action). -/
theorem c3_respond_dispatch_witness :
    (do_GET ⟨fun s => decide (s = "rc-demo"), fun _ _ => true⟩ Option.some
        (fun _ => "SIG") "/respond" (some "x") "ip" 1000
        ⟨[("ip", List.replicate 10 1000)], 1000⟩ ⟨[], 1000⟩).resp.status = 429 ∧
    (do_GET ⟨fun s => decide (s = "rc-demo"), fun _ _ => true⟩ Option.some
        (fun _ => "SIG") "/respond"
        (some (generate_token id (fun _ => "SIG") "rc-demo" "yes" 1000)) "ip" 1000
        ⟨[], 1000⟩ ⟨[], 1000⟩).resp
      = ⟨200, .okBody "rc-demo" "yes"⟩ := by
  constructor
  · exact ((c3_respond_dispatch ⟨fun s => decide (s = "rc-demo"), fun _ _ => true⟩
      Option.some (fun _ => "SIG") (some "x") "ip" 1000
      ⟨[("ip", List.replicate 10 1000)], 1000⟩ ⟨[], 1000⟩).1 (by decide)).1
  · exact ((c3_respond_dispatch ⟨fun s => decide (s = "rc-demo"), fun _ _ => true⟩
      Option.some (fun _ => "SIG")
      (some (generate_token id (fun _ => "SIG") "rc-demo" "yes" 1000)) "ip" 1000
      ⟨[], 1000⟩ ⟨[], 1000⟩).2.2.2
      (generate_token id (fun _ => "SIG") "rc-demo" "yes" 1000) "rc-demo" "yes"
      ⟨[generate_token id (fun _ => "SIG") "rc-demo" "yes" 1000], 1000⟩ "y"
      (by decide) rfl (by decide) (by decide) (by decide) (by decide)).1 (by decide)

/-! ## Webhook validation theorems -/

/-- C5.  `validate_webhook_url` rejects every URL whose parsed scheme is
neither http nor https; rejects the hosts `10.0.0.1`, `127.0.0.1` and
`192.168.1.1` (each resolving to itself, caught by the private-prefix
check) and `localhost` (blocked by the internal-hostname check before any
resolution); and accepts an https URL with a distinct public hostname that
resolves to a public address. -/
theorem c5_webhook_validation :
    (∀ (resolve : String → Option (List String)) (url : String),
      urlScheme url ≠ "http" → urlScheme url ≠ "https" →
      (validate_webhook_url resolve url).1 = false)
    ∧ (∀ resolve : String → Option (List String),
        resolve "10.0.0.1" = some ["10.0.0.1"] →
        (validate_webhook_url resolve "http://10.0.0.1/hook").1 = false)
    ∧ (∀ resolve : String → Option (List String),
        resolve "127.0.0.1" = some ["127.0.0.1"] →
        (validate_webhook_url resolve "http://127.0.0.1/hook").1 = false)
    ∧ (∀ resolve : String → Option (List String),
        resolve "192.168.1.1" = some ["192.168.1.1"] →
        (validate_webhook_url resolve "http://192.168.1.1/hook").1 = false)
    ∧ (∀ resolve : String → Option (List String),
        (validate_webhook_url resolve "https://localhost/hook").1 = false)
    ∧ (∀ resolve : String → Option (List String),
        resolve "example.com" = some ["93.184.216.34"] →
        validate_webhook_url resolve "https://example.com/hook" = (true, "")) := by
  refine ⟨?_, ?_, ?_, ?_, ?_, ?_⟩
  · intro resolve url h1 h2
    rw [validate_webhook_url, if_pos ⟨h1, h2⟩]
  · intro resolve hres
    rw [show validate_webhook_url resolve "http://10.0.0.1/hook"
        = (match resolve "10.0.0.1" with
           | none => ((true, "") : Bool × String)
           | some ips =>
             match ips.find? (fun ip => _PRIVATE_IP_PREFIXES.any (fun p => pyStartswith ip p)) with
             | some ip => (false, "Webhook URL resolves to private IP: " ++ ip)
             | none => (true, "")) from rfl]
    rw [hres]
    decide
  · intro resolve hres
    rw [show validate_webhook_url resolve "http://127.0.0.1/hook"
        = (match resolve "127.0.0.1" with
           | none => ((true, "") : Bool × String)
           | some ips =>
             match ips.find? (fun ip => _PRIVATE_IP_PREFIXES.any (fun p => pyStartswith ip p)) with
             | some ip => (false, "Webhook URL resolves to private IP: " ++ ip)
             | none => (true, "")) from rfl]
    rw [hres]
    decide
  · intro resolve hres
    rw [show validate_webhook_url resolve "http://192.168.1.1/hook"
        = (match resolve "192.168.1.1" with
           | none => ((true, "") : Bool × String)
           | some ips =>
             match ips.find? (fun ip => _PRIVATE_IP_PREFIXES.any (fun p => pyStartswith ip p)) with
             | some ip => (false, "Webhook URL resolves to private IP: " ++ ip)
             | none => (true, "")) from rfl]
    rw [hres]
    decide
  · intro resolve
    rfl
  · intro resolve hres
    rw [show validate_webhook_url resolve "https://example.com/hook"
        = (match resolve "example.com" with
           | none => ((true, "") : Bool × String)
           | some ips =>
             match ips.find? (fun ip => _PRIVATE_IP_PREFIXES.any (fun p => pyStartswith ip p)) with
             | some ip => (false, "Webhook URL resolves to private IP: " ++ ip)
             | none => (true, "")) from rfl]
    rw [hres]
    decide

/-- C5 witness: the validation theorem applied with a concrete resolver
that maps IP-literal hostnames to themselves and `example.com` to a public
address. -/
theorem c5_webhook_validation_witness :
    (validate_webhook_url
        (fun h => if h = "example.com" then some ["93.184.216.34"] else some [h])
        "ftp://evil.example/hook").1 = false ∧
    (validate_webhook_url
        (fun h => if h = "example.com" then some ["93.184.216.34"] else some [h])
        "http://10.0.0.1/hook").1 = false ∧
    (validate_webhook_url
        (fun h => if h = "example.com" then some ["93.184.216.34"] else some [h])
        "https://localhost/hook").1 = false ∧
    validate_webhook_url
        (fun h => if h = "example.com" then some ["93.184.216.34"] else some [h])
        "https://example.com/hook" = (true, "") := by
  refine ⟨?_, ?_, ?_, ?_⟩
  · exact c5_webhook_validation.1 _ "ftp://evil.example/hook" (by decide) (by decide)
  · exact c5_webhook_validation.2.1 _ (by decide)
  · exact c5_webhook_validation.2.2.2.2.1 _
  · exact c5_webhook_validation.2.2.2.2.2 _ (by decide)

/-! ## Notification dispatch theorems -/

/-- C10.  When the loaded notification configuration does not have
`enabled` set to true, both `send_notification` and
`send_interactive_notification` return success without validating any URL,
issuing any token, or contacting any provider (empty effect trace). -/
theorem c10_disabled_is_success (config : NotifyConfig) (env : NotifyEnv)
    (webhookUrlArg : Option String) (session : String)
    (responderHostArg : Option String)
    (hdis : config.enabled = false) :
    send_notification config env webhookUrlArg = (true, []) ∧
    send_interactive_notification config env session responderHostArg = (true, []) := by
  constructor
  · rw [send_notification, hdis]
    rfl
  · rw [send_interactive_notification, hdis]
    rfl

/-- C10 witness: a disabled configuration (with credentials present that
would otherwise be used) reports success with no effects. -/
theorem c10_disabled_is_success_witness :
    send_notification
        ⟨false, some "u", some "t", some "https://example.com/hook"⟩
        ⟨none, none, none, true, true, fun _ => none, some "100.1.2.3"⟩ none
      = (true, []) ∧
    send_interactive_notification
        ⟨false, some "u", some "t", some "https://example.com/hook"⟩
        ⟨none, none, none, true, true, fun _ => none, some "100.1.2.3"⟩
        "rc-demo" none
      = (true, []) :=
  c10_disabled_is_success
    ⟨false, some "u", some "t", some "https://example.com/hook"⟩
    ⟨none, none, none, true, true, fun _ => none, some "100.1.2.3"⟩
    none "rc-demo" none rfl

/-! ## Prompt Classifier theorems -/

theorem parsePromptScan_eq_none (t : String) (ps : List PromptPattern)
    (h : ∀ p ∈ ps, ∀ m, p.search t = some m → p.build m = none) :
    parsePromptScan t ps = none := by
  induction ps with
  | nil => rfl
  | cons p ps ih =>
    simp only [parsePromptScan]
    cases hs : p.search t with
    | none => exact ih fun q hq => h q (List.mem_cons_of_mem _ hq)
    | some m =>
      show (match p.build m with
            | some r => some r
            | none => parsePromptScan t ps) = none
      rw [h p (List.mem_cons_self _ _) m hs]
      exact ih fun q hq => h q (List.mem_cons_of_mem _ hq)

theorem parsePromptScan_eq_some (t : String) (ps : List PromptPattern)
    (r : PermissionPrompt) (h : parsePromptScan t ps = some r) :
    ∃ p ∈ ps, ∃ m, p.search t = some m ∧ p.build m = some r := by
  induction ps with
  | nil => exact absurd h (by simp [parsePromptScan])
  | cons p ps ih =>
    simp only [parsePromptScan] at h
    cases hs : p.search t with
    | none =>
      simp only [hs] at h
      obtain ⟨q, hq, hm⟩ := ih h
      exact ⟨q, List.mem_cons_of_mem _ hq, hm⟩
    | some m =>
      simp only [hs] at h
      cases hb : p.build m with
      | none =>
        simp only [hb] at h
        obtain ⟨q, hq, hm⟩ := ih h
        exact ⟨q, List.mem_cons_of_mem _ hq, hm⟩
      | some r' =>
        simp only [hb, Option.some.injEq] at h
        exact ⟨p, List.mem_cons_self _ _, m, hs, by rw [hb, h]⟩

/-- C7.  Prompt parsing is total and never fabricates a result:
`parse_permission_prompt` returns `none` whenever no pattern matches (or a
matched pattern's builder fails, modelling a caught exception), and a
`some` result always comes from a listed pattern's match and builder;
`extract_prompt_from_output` returns `none` when no searched line and not
the combined tail satisfies the permission indicator, and a `some` result
is always a stripped line of the captured output (satisfying the
indicator) or the segment found in the combined tail.  Exceptions are
modelled by the `Option` results, so both functions always return to the
caller. -/
theorem c7_parser_total_no_fabrication :
    (∀ (patterns : List PromptPattern) (text : String),
      (∀ p ∈ patterns, ∀ m, p.search (pyStrip text) = some m → p.build m = none) →
      parse_permission_prompt patterns text = none)
    ∧ (∀ (patterns : List PromptPattern) (text : String) (r : PermissionPrompt),
        parse_permission_prompt patterns text = some r →
        ∃ p ∈ patterns, ∃ m, p.search (pyStrip text) = some m ∧ p.build m = some r)
    ∧ (∀ (isPrompt : String → Bool) (findSegment : String → Option String)
        (output : String) (n : Nat),
        (∀ line ∈ extractSearchLines output n, isPrompt (pyStrip line) = false) →
        isPrompt (extractCombined output n) = false →
        extract_prompt_from_output isPrompt findSegment output n = none)
    ∧ (∀ (isPrompt : String → Bool) (findSegment : String → Option String)
        (output : String) (n : Nat) (l : String),
        extract_prompt_from_output isPrompt findSegment output n = some l →
        ((∃ line ∈ extractSearchLines output n, l = pyStrip line ∧ isPrompt l = true)
          ∨ (isPrompt (extractCombined output n) = true
             ∧ findSegment (extractCombined output n) = some l))) := by
  refine ⟨?_, ?_, ?_, ?_⟩
  · intro patterns text h
    rw [parse_permission_prompt]
    split
    · rfl
    · exact parsePromptScan_eq_none _ _ h
  · intro patterns text r h
    rw [parse_permission_prompt] at h
    split at h
    · exact absurd h (by simp)
    · exact parsePromptScan_eq_some _ _ _ h
  · intro isPrompt findSegment output n hline hcomb
    simp only [extract_prompt_from_output]
    split
    · rfl
    · have hfind : (extractSearchLines output n).reverse.find?
          (fun line => !(pyStrip line).data.isEmpty && isPrompt (pyStrip line)) = none := by
        rw [List.find?_eq_none]
        intro x hx
        rw [hline x (List.mem_reverse.mp hx)]
        simp
      rw [hfind, hcomb]
      simp
  · intro isPrompt findSegment output n l h
    simp only [extract_prompt_from_output] at h
    split at h
    · exact absurd h (by simp)
    · cases hf : (extractSearchLines output n).reverse.find?
          (fun line => !(pyStrip line).data.isEmpty && isPrompt (pyStrip line)) with
      | some line =>
        rw [hf] at h
        have hp := List.find?_some hf
        have hmem := List.mem_of_find?_eq_some hf
        simp only [Bool.and_eq_true] at hp
        have hl : some (pyStrip line) = some l := h
        have hl2 : pyStrip line = l := Option.some_inj.mp hl
        refine Or.inl ⟨line, List.mem_reverse.mp hmem, hl2.symm, ?_⟩
        rw [← hl2]
        exact hp.2
      | none =>
        rw [hf] at h
        by_cases hc : isPrompt (extractCombined output n) = true
        · rw [if_pos hc] at h
          exact Or.inr ⟨hc, h⟩
        · rw [if_neg hc] at h
          exact absurd h (by simp)

/-- C7 witness: the parser contract applied to an empty pattern list and to
an indicator that matches nothing. -/
theorem c7_parser_total_no_fabrication_witness :
    parse_permission_prompt [] "no prompt here" = none ∧
    extract_prompt_from_output (fun _ => false) (fun _ => none) "hello" 20 = none :=
  ⟨c7_parser_total_no_fabrication.1 [] "no prompt here"
      (fun p hp => absurd hp (List.not_mem_nil p)),
   c7_parser_total_no_fabrication.2.2.1 (fun _ => false) (fun _ => none) "hello" 20
      (fun _ _ => rfl) rfl⟩

/-! ## Session Watcher theorems -/

theorem checkWaitingSection_fields (env : WatchEnv) (st : WatcherState) (now : Nat)
    (content : String) :
    (checkWaitingSection env st now content).2.rateLimitDetectedAt = st.rateLimitDetectedAt
    ∧ (checkWaitingSection env st now content).2.rateLimitNotified = st.rateLimitNotified
    ∧ (checkWaitingSection env st now content).2.rateLimitCount = st.rateLimitCount
    ∧ (checkWaitingSection env st now content).2.lastPrompt = st.lastPrompt
    ∧ (checkWaitingSection env st now content).2.notifiedPrompt = st.notifiedPrompt
    ∧ (checkWaitingSection env st now content).2.promptDetectedAt = st.promptDetectedAt := by
  simp only [checkWaitingSection]
  repeat' split
  all_goals first | rfl | simp

theorem checkWaitingSection_kind (env : WatchEnv) (st : WatcherState) (now : Nat)
    (content : String) :
    (checkWaitingSection env st now content).1 = none
    ∨ (∃ t m, (checkWaitingSection env st now content).1 = some (.waiting t m))
    ∨ (∃ t m, (checkWaitingSection env st now content).1 = some (.idle t m)) := by
  simp only [checkWaitingSection]
  repeat' split
  all_goals first
    | exact Or.inl rfl
    | exact Or.inr (Or.inl ⟨_, _, rfl⟩)
    | exact Or.inr (Or.inr ⟨_, _, rfl⟩)

theorem checkWaitingSection_no_rate (env : WatchEnv) (st : WatcherState) (now : Nat)
    (content : String) (t m ca : String) (acc : List String) (mo : String) :
    (checkWaitingSection env st now content).1 ≠ some (.rateLimit t m ca acc mo) := by
  rcases checkWaitingSection_kind env st now content with h | ⟨a, b, h⟩ | ⟨a, b, h⟩ <;>
    rw [h] <;> simp

theorem checkWaitingSection_no_perm (env : WatchEnv) (st : WatcherState) (now : Nat)
    (content : String) (t m : String) (p : PermissionPrompt) :
    (checkWaitingSection env st now content).1 ≠ some (.permission t m p) := by
  rcases checkWaitingSection_kind env st now content with h | ⟨a, b, h⟩ | ⟨a, b, h⟩ <;>
    rw [h] <;> simp

theorem checkRateSection_eq_or (env : WatchEnv) (st : WatcherState) (now : Nat)
    (content : String) :
    (∃ t m ca acc mo,
      (checkRateSection env st now content).1 = some (.rateLimit t m ca acc mo))
    ∨ ∃ stX, checkRateSection env st now content = checkWaitingSection env stX now content := by
  simp only [checkRateSection]
  repeat' split
  all_goals first
    | exact Or.inl ⟨_, _, _, _, _, rfl⟩
    | exact Or.inr ⟨_, rfl⟩

theorem checkRateSection_no_perm (env : WatchEnv) (st : WatcherState) (now : Nat)
    (content : String) (t m : String) (p : PermissionPrompt) :
    (checkRateSection env st now content).1 ≠ some (.permission t m p) := by
  rcases checkRateSection_eq_or env st now content with ⟨a, b, c, d, e, h⟩ | ⟨stX, h⟩
  · rw [h]
    simp
  · rw [h]
    exact checkWaitingSection_no_perm env stX now content t m p

theorem checkRateSection_prompt_fields (env : WatchEnv) (st : WatcherState) (now : Nat)
    (content : String) :
    (checkRateSection env st now content).2.lastPrompt = st.lastPrompt
    ∧ (checkRateSection env st now content).2.notifiedPrompt = st.notifiedPrompt
    ∧ (checkRateSection env st now content).2.promptDetectedAt = st.promptDetectedAt := by
  simp only [checkRateSection]
  repeat' split
  all_goals simp [checkWaitingSection_fields]

theorem checkRateSection_reset (env : WatchEnv) (st : WatcherState) (now : Nat)
    (content : String) (h : env.isRateLimited content = false) :
    (checkRateSection env st now content).2.rateLimitDetectedAt = none
    ∧ (checkRateSection env st now content).2.rateLimitNotified = false
    ∧ (checkRateSection env st now content).2.rateLimitCount = 0 := by
  simp only [checkRateSection, h]
  simp [checkWaitingSection_fields]

theorem checkRateSection_main (env : WatchEnv) (st : WatcherState) (now : Nat)
    (content : String) :
    (env.isRateLimited content = true
     ∧ (∃ t0, st.rateLimitDetectedAt = some t0 ∧ now - t0 ≥ RATE_LIMIT_DEBOUNCE)
     ∧ st.rateLimitNotified = false
     ∧ (∃ t m ca acc mo,
         (checkRateSection env st now content).1 = some (.rateLimit t m ca acc mo))
     ∧ (checkRateSection env st now content).2.rateLimitNotified = true)
    ∨ ((∀ t m ca acc mo,
         (checkRateSection env st now content).1 ≠ some (.rateLimit t m ca acc mo))
       ∧ (env.isRateLimited content = true → st.rateLimitNotified = true →
            (checkRateSection env st now content).2.rateLimitNotified = true)) := by
  by_cases hr : env.isRateLimited content = true
  · cases hd : st.rateLimitDetectedAt with
    | none =>
      have hred : checkRateSection env st now content
          = checkWaitingSection env
              { st with rateLimitCount := st.rateLimitCount + 1, rateLimitDetectedAt := some now }
              now content := by
        rw [checkRateSection, if_pos hr]
        simp [hd, RATE_LIMIT_DEBOUNCE]
      refine Or.inr ⟨?_, ?_⟩
      · intro t m ca acc mo
        rw [hred]
        exact checkWaitingSection_no_rate env _ now content t m ca acc mo
      · intro _ hn
        rw [hred, (checkWaitingSection_fields env _ now content).2.1]
        simpa using hn
    | some t0 =>
      by_cases hcond : now - t0 ≥ RATE_LIMIT_DEBOUNCE ∧ st.rateLimitNotified = false
      · have hred : checkRateSection env st now content
            = (some (.rateLimit "Rate Limit Detected"
                ("Session " ++ st.name ++ " hit rate limit on account '"
                  ++ env.containerAccount.getD "default" ++ "'")
                (env.containerAccount.getD "default")
                (env.availableAccounts.filter
                  (fun a => decide (a ≠ env.containerAccount.getD "default")))
                env.rateLimitMode),
               { st with rateLimitCount := st.rateLimitCount + 1,
                         rateLimitNotified := true, lastNotification := now }) := by
          rw [checkRateSection, if_pos hr]
          simp only [hd]
          rw [if_pos (by simpa using hcond)]
        refine Or.inl ⟨hr, ⟨t0, rfl, hcond.1⟩, hcond.2, ?_, ?_⟩
        · rw [hred]
          exact ⟨_, _, _, _, _, rfl⟩
        · rw [hred]
      · have hred : checkRateSection env st now content
            = checkWaitingSection env
                { st with rateLimitCount := st.rateLimitCount + 1 } now content := by
          rw [checkRateSection, if_pos hr]
          simp only [hd]
          rw [if_neg (by simpa using hcond)]
        refine Or.inr ⟨?_, ?_⟩
        · intro t m ca acc mo
          rw [hred]
          exact checkWaitingSection_no_rate env _ now content t m ca acc mo
        · intro _ hn
          rw [hred, (checkWaitingSection_fields env _ now content).2.1]
          simpa using hn
  · have hred : checkRateSection env st now content
        = checkWaitingSection env
            { st with rateLimitDetectedAt := none, rateLimitNotified := false,
                      rateLimitCount := 0 } now content := by
      rw [checkRateSection, if_neg hr]
    refine Or.inr ⟨?_, ?_⟩
    · intro t m ca acc mo
      rw [hred]
      exact checkWaitingSection_no_rate env _ now content t m ca acc mo
    · intro hflag _
      exact absurd hflag hr

theorem checkPromptSection_clear (env : WatchEnv) (st : WatcherState) (now : Nat)
    (content : String) (hex : env.extractPrompt content = none) :
    (checkPromptSection env st now content).2.lastPrompt = none
    ∧ (checkPromptSection env st now content).2.notifiedPrompt = none
    ∧ (checkPromptSection env st now content).2.promptDetectedAt = none := by
  rw [checkPromptSection]
  simp only [hex]
  refine ⟨?_, ?_, ?_⟩ <;> simp [checkRateSection_prompt_fields]

theorem checkPromptSection_cases (env : WatchEnv) (st : WatcherState) (now : Nat)
    (content : String) :
    (∃ pt parsed t0,
        env.extractPrompt content = some pt
        ∧ st.lastPrompt = some pt
        ∧ st.promptDetectedAt = some t0 ∧ now - t0 ≥ PROMPT_NOTIFY_DELAY
        ∧ st.notifiedPrompt ≠ some pt
        ∧ now - st.lastNotification > 30
        ∧ env.parsePrompt pt = some parsed
        ∧ checkPromptSection env st now content
            = (some (.permission (parsed.tool ++ " Permission")
                (format_notification_message parsed 200) parsed),
               { st with notifiedPrompt := some pt, lastNotification := now,
                         notifiedWaiting := true }))
    ∨ ((¬∃ pt parsed t0,
          env.extractPrompt content = some pt
          ∧ st.lastPrompt = some pt
          ∧ st.promptDetectedAt = some t0 ∧ now - t0 ≥ PROMPT_NOTIFY_DELAY
          ∧ st.notifiedPrompt ≠ some pt
          ∧ now - st.lastNotification > 30
          ∧ env.parsePrompt pt = some parsed)
       ∧ ∃ stX, checkPromptSection env st now content = checkRateSection env stX now content
          ∧ stX.rateLimitDetectedAt = st.rateLimitDetectedAt
          ∧ stX.rateLimitNotified = st.rateLimitNotified
          ∧ stX.rateLimitCount = st.rateLimitCount) := by
  cases hex : env.extractPrompt content with
  | none =>
    refine Or.inr ⟨?_, ?_⟩
    · rintro ⟨pt, parsed, t0, hex2, _⟩
      exact Option.noConfusion hex2
    · refine ⟨{ st with lastPrompt := none, notifiedPrompt := none, promptDetectedAt := none },
        ?_, rfl, rfl, rfl⟩
      simp only [checkPromptSection, hex]
  | some pt =>
    by_cases hlp : st.lastPrompt = some pt
    case neg =>
      have hnotex : ¬∃ pt2 parsed t0,
          (some pt : Option String) = some pt2
          ∧ st.lastPrompt = some pt2
          ∧ st.promptDetectedAt = some t0 ∧ now - t0 ≥ PROMPT_NOTIFY_DELAY
          ∧ st.notifiedPrompt ≠ some pt2
          ∧ now - st.lastNotification > 30
          ∧ env.parsePrompt pt2 = some parsed := by
        rintro ⟨pt2, parsed, t0, hex2, hlp2, _⟩
        cases Option.some_inj.mp hex2
        exact hlp hlp2
      by_cases hnp : ({ st with lastPrompt := some pt, promptDetectedAt := some now }
          : WatcherState).notifiedPrompt ≠ some pt
      · refine Or.inr ⟨hnotex,
          ⟨{ st with lastPrompt := some pt, promptDetectedAt := some now }, ?_, rfl, rfl, rfl⟩⟩
        simp only [checkPromptSection, hex]
        rw [if_pos (show st.lastPrompt ≠ some pt from hlp), if_pos hnp]
        have hcond0 : ¬(now - ({ st with lastPrompt := some pt, promptDetectedAt := some now }
              : WatcherState).promptDetectedAt.getD now ≥ PROMPT_NOTIFY_DELAY
            ∧ now - ({ st with lastPrompt := some pt, promptDetectedAt := some now }
              : WatcherState).lastNotification > 30) := by
          simp [PROMPT_NOTIFY_DELAY]
        rw [if_neg hcond0]
      · refine Or.inr ⟨hnotex,
          ⟨{ st with lastPrompt := some pt, promptDetectedAt := some now }, ?_, rfl, rfl, rfl⟩⟩
        simp only [checkPromptSection, hex]
        rw [if_pos (show st.lastPrompt ≠ some pt from hlp), if_neg hnp]
    case pos =>
      have hst2 : (if st.lastPrompt ≠ some pt then
          ({ st with lastPrompt := some pt, promptDetectedAt := some now } : WatcherState)
          else st) = st := if_neg (fun h => h hlp)
      by_cases hnp : st.notifiedPrompt ≠ some pt
      · by_cases hconds : now - st.promptDetectedAt.getD now ≥ PROMPT_NOTIFY_DELAY
            ∧ now - st.lastNotification > 30
        · cases hpp : env.parsePrompt pt with
          | some parsed =>
            cases hda : st.promptDetectedAt with
            | none =>
              refine absurd hconds.1 ?_
              rw [hda]
              simp [PROMPT_NOTIFY_DELAY]
            | some t0 =>
              refine Or.inl ⟨pt, parsed, t0, rfl, hlp, rfl, ?_, hnp, hconds.2, hpp, ?_⟩
              · have hc := hconds.1
                rw [hda] at hc
                simpa using hc
              · simp only [checkPromptSection, hex]
                rw [hst2, if_pos hnp, if_pos hconds]
                simp only [hpp]
                rw [hda]
          | none =>
            refine Or.inr ⟨?_, st, ?_, rfl, rfl, rfl⟩
            · rintro ⟨pt2, parsed, t0, hex2, _, _, _, _, _, hpp2⟩
              cases Option.some_inj.mp hex2
              rw [hpp] at hpp2
              exact Option.noConfusion hpp2
            · simp only [checkPromptSection, hex]
              rw [hst2, if_pos hnp, if_pos hconds]
              simp only [hpp]
        · refine Or.inr ⟨?_, st, ?_, rfl, rfl, rfl⟩
          · rintro ⟨pt2, parsed, t0, hex2, _, hda2, hdel2, _, hln2, _⟩
            cases Option.some_inj.mp hex2
            refine hconds ⟨?_, hln2⟩
            rw [hda2]
            simpa using hdel2
          · simp only [checkPromptSection, hex]
            rw [hst2, if_pos hnp, if_neg hconds]
      · refine Or.inr ⟨?_, st, ?_, rfl, rfl, rfl⟩
        · rintro ⟨pt2, parsed, t0, hex2, _, _, _, hnp2, _⟩
          cases Option.some_inj.mp hex2
          push_neg at hnp
          exact hnp2 hnp
        · simp only [checkPromptSection, hex]
          rw [hst2, if_neg hnp]

theorem checkPromptSection_perm_iff (env : WatchEnv) (st : WatcherState) (now : Nat)
    (content : String) :
    (∃ t m p, (checkPromptSection env st now content).1 = some (.permission t m p))
    ↔ ∃ pt parsed t0,
        env.extractPrompt content = some pt
        ∧ st.lastPrompt = some pt
        ∧ st.promptDetectedAt = some t0 ∧ now - t0 ≥ PROMPT_NOTIFY_DELAY
        ∧ st.notifiedPrompt ≠ some pt
        ∧ now - st.lastNotification > 30
        ∧ env.parsePrompt pt = some parsed := by
  rcases checkPromptSection_cases env st now content with
    ⟨pt, parsed, t0, hex, hlp, hda, hdel, hnp, hln, hpp, heq⟩ | ⟨hnot, stX, heq, _⟩
  · constructor
    · intro _
      exact ⟨pt, parsed, t0, hex, hlp, hda, hdel, hnp, hln, hpp⟩
    · intro _
      exact ⟨_, _, _, by rw [heq]⟩
  · constructor
    · rintro ⟨t, m, p, h⟩
      rw [heq] at h
      exact absurd h (checkRateSection_no_perm env stX now content t m p)
    · intro hrhs
      exact absurd hrhs hnot

theorem checkPromptSection_shape (env : WatchEnv) (st : WatcherState) (now : Nat)
    (content : String) :
    (∃ t m p st', checkPromptSection env st now content = (some (.permission t m p), st')
        ∧ st'.rateLimitDetectedAt = st.rateLimitDetectedAt
        ∧ st'.rateLimitNotified = st.rateLimitNotified
        ∧ st'.rateLimitCount = st.rateLimitCount)
    ∨ (∃ stX, checkPromptSection env st now content = checkRateSection env stX now content
        ∧ stX.rateLimitDetectedAt = st.rateLimitDetectedAt
        ∧ stX.rateLimitNotified = st.rateLimitNotified
        ∧ stX.rateLimitCount = st.rateLimitCount) := by
  rcases checkPromptSection_cases env st now content with
    ⟨pt, parsed, t0, _, _, _, _, _, _, _, heq⟩ | ⟨_, stX, heq, f1, f2, f3⟩
  · exact Or.inl ⟨_, _, _, _, heq, rfl, rfl, rfl⟩
  · exact Or.inr ⟨stX, heq, f1, f2, f3⟩

theorem check_session_some (env : WatchEnv) (st : WatcherState) (now : Nat)
    (content : String) :
    check_session env st now (some content)
      = checkPromptSection env
          (if content ≠ st.lastContent
           then { st with lastContent := content, lastChange := now } else st)
          now content := rfl

/-- C6 (amended).  In a tick that captures content, a permission
notification is emitted exactly when the same prompt line has been
continuously visible for at least `PROMPT_NOTIFY_DELAY` seconds (tracked by
`lastPrompt` / `promptDetectedAt`), has not already been notified, strictly
more than 30 seconds have passed since the session's last notification of
any kind, and the line parses as a structured permission prompt; and in any
tick where no prompt is found, all prompt-tracking fields are cleared. -/
theorem c6_permission_debounce (env : WatchEnv) (st : WatcherState) (now : Nat)
    (content : String) :
    ((∃ t m p, (check_session env st now (some content)).1 = some (.permission t m p))
      ↔ ∃ pt parsed t0,
          env.extractPrompt content = some pt
          ∧ st.lastPrompt = some pt
          ∧ st.promptDetectedAt = some t0 ∧ now - t0 ≥ PROMPT_NOTIFY_DELAY
          ∧ st.notifiedPrompt ≠ some pt
          ∧ now - st.lastNotification > 30
          ∧ env.parsePrompt pt = some parsed)
    ∧ (env.extractPrompt content = none →
        (check_session env st now (some content)).2.lastPrompt = none
        ∧ (check_session env st now (some content)).2.notifiedPrompt = none
        ∧ (check_session env st now (some content)).2.promptDetectedAt = none) := by
  have e1 : (if content ≠ st.lastContent
      then { st with lastContent := content, lastChange := now } else st).lastPrompt
      = st.lastPrompt := by split <;> rfl
  have e2 : (if content ≠ st.lastContent
      then { st with lastContent := content, lastChange := now } else st).notifiedPrompt
      = st.notifiedPrompt := by split <;> rfl
  have e3 : (if content ≠ st.lastContent
      then { st with lastContent := content, lastChange := now } else st).promptDetectedAt
      = st.promptDetectedAt := by split <;> rfl
  have e4 : (if content ≠ st.lastContent
      then { st with lastContent := content, lastChange := now } else st).lastNotification
      = st.lastNotification := by split <;> rfl
  constructor
  · rw [check_session_some, checkPromptSection_perm_iff, e1, e2, e3, e4]
  · intro hex
    rw [check_session_some]
    exact checkPromptSection_clear env _ now content hex

/-- C6 counterexample: all conditions of the claim hold — the same
parseable prompt has been visible for 1000 s, it was never notified, and
exactly 30 s ("at least 30 seconds") have passed since the last
notification — yet no notification of any kind is emitted, because the
code requires strictly more than 30 seconds. -/
theorem c6_boundary_counterexample :
    (check_session
        ⟨fun _ => some "Allow?", fun _ => some ⟨"Bash", "rm x", "d", ['y'], "r"⟩,
         fun _ => false, fun _ => false, fun _ => false, none, [], "manual"⟩
        ⟨"rc-x", "c", 0, 970, false, false, some "Allow?", none, some 0, none, false, 0⟩
        1000 (some "c")).1 = none
    ∧ 1000 - (970 : Nat) ≥ 30
    ∧ 1000 - (0 : Nat) ≥ PROMPT_NOTIFY_DELAY := by
  refine ⟨by decide, by decide, by decide⟩

/-- C6 witness: the amended characterization applied at a concrete
emitting state and at a concrete prompt-free tick. -/
theorem c6_permission_debounce_witness :
    (∃ t m p,
      (check_session
        ⟨fun _ => some "Allow?", fun _ => some ⟨"Bash", "rm x", "d", ['y'], "r"⟩,
         fun _ => false, fun _ => false, fun _ => false, none, [], "manual"⟩
        ⟨"rc-x", "c", 0, 900, false, false, some "Allow?", none, some 0, none, false, 0⟩
        1000 (some "c")).1 = some (.permission t m p))
    ∧ (check_session
        ⟨fun _ => none, fun _ => none,
         fun _ => false, fun _ => false, fun _ => false, none, [], "manual"⟩
        ⟨"rc-x", "c", 0, 900, false, false, some "Allow?", some "Allow?", some 0,
         none, false, 0⟩
        1000 (some "c")).2.lastPrompt = none :=
  ⟨(c6_permission_debounce
      ⟨fun _ => some "Allow?", fun _ => some ⟨"Bash", "rm x", "d", ['y'], "r"⟩,
       fun _ => false, fun _ => false, fun _ => false, none, [], "manual"⟩
      ⟨"rc-x", "c", 0, 900, false, false, some "Allow?", none, some 0, none, false, 0⟩
      1000 "c").1.mpr
    ⟨"Allow?", ⟨"Bash", "rm x", "d", ['y'], "r"⟩, 0, rfl, rfl, rfl,
     by decide, by decide, by decide, rfl⟩,
   ((c6_permission_debounce
      ⟨fun _ => none, fun _ => none,
       fun _ => false, fun _ => false, fun _ => false, none, [], "manual"⟩
      ⟨"rc-x", "c", 0, 900, false, false, some "Allow?", some "Allow?", some 0,
       none, false, 0⟩
      1000 "c").2 rfl).1⟩

/-- C8 (amended).  Per tick with captured content: a rate_limit event is
emitted only when the signal is positive now, has been positive
continuously for at least `RATE_LIMIT_DEBOUNCE` seconds (tracked by
`rateLimitDetectedAt`), and the episode has not yet been acted on — and the
emission marks it acted on; any tick with a negative signal that reaches
the rate-limit check (i.e. does not return a permission notification
earlier) resets all rate-limit tracking fields immediately; and a tick with
a positive signal whose episode was already acted on emits nothing and
keeps the acted-on mark. -/
theorem c8_rate_limit_debounce (env : WatchEnv) (st : WatcherState) (now : Nat)
    (content : String) :
    (∀ t m ca acc mo,
      (check_session env st now (some content)).1 = some (.rateLimit t m ca acc mo) →
      env.isRateLimited content = true
      ∧ (∃ t0, st.rateLimitDetectedAt = some t0 ∧ now - t0 ≥ RATE_LIMIT_DEBOUNCE)
      ∧ st.rateLimitNotified = false
      ∧ (check_session env st now (some content)).2.rateLimitNotified = true)
    ∧ (env.isRateLimited content = false →
        (∀ t m p, (check_session env st now (some content)).1 ≠ some (.permission t m p)) →
        (check_session env st now (some content)).2.rateLimitDetectedAt = none
        ∧ (check_session env st now (some content)).2.rateLimitNotified = false
        ∧ (check_session env st now (some content)).2.rateLimitCount = 0)
    ∧ (env.isRateLimited content = true → st.rateLimitNotified = true →
        (∀ t m ca acc mo,
          (check_session env st now (some content)).1 ≠ some (.rateLimit t m ca acc mo))
        ∧ (check_session env st now (some content)).2.rateLimitNotified = true) := by
  have e5 : (if content ≠ st.lastContent
      then { st with lastContent := content, lastChange := now } else st).rateLimitDetectedAt
      = st.rateLimitDetectedAt := by split <;> rfl
  have e6 : (if content ≠ st.lastContent
      then { st with lastContent := content, lastChange := now } else st).rateLimitNotified
      = st.rateLimitNotified := by split <;> rfl
  refine ⟨?_, ?_, ?_⟩
  · intro t m ca acc mo h
    rw [check_session_some] at h ⊢
    rcases checkPromptSection_shape env _ now content with
      ⟨t', m', p', st', heq, f1, f2, f3⟩ | ⟨stX, heq, f1, f2, f3⟩
    · rw [heq] at h
      exact absurd h (by simp)
    · rw [heq] at h ⊢
      rcases checkRateSection_main env stX now content with
        ⟨ha, ⟨t0, hd, hdur⟩, hnot, _, hpost⟩ | ⟨hno, _⟩
      · refine ⟨ha, ⟨t0, ?_, hdur⟩, ?_, hpost⟩
        · rw [← e5, ← f1]
          exact hd
        · rw [← e6, ← f2]
          exact hnot
      · exact absurd h (hno t m ca acc mo)
  · intro hneg hnoperm
    rw [check_session_some] at hnoperm ⊢
    rcases checkPromptSection_shape env _ now content with
      ⟨t', m', p', st', heq, f1, f2, f3⟩ | ⟨stX, heq, f1, f2, f3⟩
    · exact absurd (show (checkPromptSection env _ now content).1
          = some (.permission t' m' p') by rw [heq]) (hnoperm t' m' p')
    · rw [heq]
      exact checkRateSection_reset env stX now content hneg
  · intro hr hn
    rw [check_session_some]
    rcases checkPromptSection_shape env _ now content with
      ⟨t', m', p', st', heq, f1, f2, f3⟩ | ⟨stX, heq, f1, f2, f3⟩
    · constructor
      · intro t m ca acc mo hcontra
        rw [heq] at hcontra
        exact absurd hcontra (by simp)
      · rw [heq]
        show st'.rateLimitNotified = true
        rw [f2, e6]
        exact hn
    · rw [heq]
      have hx : stX.rateLimitNotified = true := by
        rw [f2, e6]
        exact hn
      rcases checkRateSection_main env stX now content with
        ⟨_, _, hnot, _, _⟩ | ⟨hno, himp⟩
      · rw [hx] at hnot
        exact absurd hnot (by simp)
      · exact ⟨hno, himp hr hx⟩

/-- C8 counterexample: a tick with a negative rate-limit signal in which a
permission notification is emitted returns before the rate-limit check, so
the stale rate-limit tracking fields (`rateLimitDetectedAt = some 7`,
`rateLimitNotified = true`, `rateLimitCount = 5`) are not reset, refuting
"any tick with a negative signal immediately resets all rate-limit
tracking fields". -/
theorem c8_reset_skip_counterexample :
    ((⟨fun _ => some "P!", fun _ => some ⟨"Bash", "rm x", "d", ['y'], "r"⟩,
       fun _ => false, fun _ => false, fun _ => false, none, [], "manual"⟩
      : WatchEnv).isRateLimited "c") = false
    ∧ (check_session
        ⟨fun _ => some "P!", fun _ => some ⟨"Bash", "rm x", "d", ['y'], "r"⟩,
         fun _ => false, fun _ => false, fun _ => false, none, [], "manual"⟩
        ⟨"rc-s", "c", 0, 0, false, false, some "P!", none, some 0, some 7, true, 5⟩
        200 (some "c")).1
      = some (.permission "Bash Permission" "Bash: rm x" ⟨"Bash", "rm x", "d", ['y'], "r"⟩)
    ∧ (check_session
        ⟨fun _ => some "P!", fun _ => some ⟨"Bash", "rm x", "d", ['y'], "r"⟩,
         fun _ => false, fun _ => false, fun _ => false, none, [], "manual"⟩
        ⟨"rc-s", "c", 0, 0, false, false, some "P!", none, some 0, some 7, true, 5⟩
        200 (some "c")).2.rateLimitDetectedAt = some 7
    ∧ (check_session
        ⟨fun _ => some "P!", fun _ => some ⟨"Bash", "rm x", "d", ['y'], "r"⟩,
         fun _ => false, fun _ => false, fun _ => false, none, [], "manual"⟩
        ⟨"rc-s", "c", 0, 0, false, false, some "P!", none, some 0, some 7, true, 5⟩
        200 (some "c")).2.rateLimitNotified = true
    ∧ (check_session
        ⟨fun _ => some "P!", fun _ => some ⟨"Bash", "rm x", "d", ['y'], "r"⟩,
         fun _ => false, fun _ => false, fun _ => false, none, [], "manual"⟩
        ⟨"rc-s", "c", 0, 0, false, false, some "P!", none, some 0, some 7, true, 5⟩
        200 (some "c")).2.rateLimitCount = 5 := by
  refine ⟨rfl, by decide, by decide, by decide, by decide⟩

/-- C8 witness: the per-tick characterization applied at a concrete
emitting tick (debounce satisfied, episode marked acted-on) and at a
concrete negative-signal tick that resets the tracking fields. -/
theorem c8_rate_limit_debounce_witness :
    (check_session
        ⟨fun _ => none, fun _ => none, fun _ => true, fun _ => false, fun _ => false,
         none, [], "manual"⟩
        ⟨"rc-s", "c", 0, 0, false, false, none, none, none, some 0, false, 3⟩
        100 (some "c")).2.rateLimitNotified = true
    ∧ (check_session
        ⟨fun _ => none, fun _ => none, fun _ => false, fun _ => false, fun _ => false,
         none, [], "manual"⟩
        ⟨"rc-s", "c", 0, 0, false, false, none, none, none, some 7, true, 5⟩
        100 (some "c")).2.rateLimitNotified = false :=
  ⟨((c8_rate_limit_debounce
      ⟨fun _ => none, fun _ => none, fun _ => true, fun _ => false, fun _ => false,
       none, [], "manual"⟩
      ⟨"rc-s", "c", 0, 0, false, false, none, none, none, some 0, false, 3⟩
      100 "c").1 "Rate Limit Detected"
      "Session rc-s hit rate limit on account 'default'" "default" [] "manual"
      (by decide)).2.2.2,
   ((c8_rate_limit_debounce
      ⟨fun _ => none, fun _ => none, fun _ => false, fun _ => false, fun _ => false,
       none, [], "manual"⟩
      ⟨"rc-s", "c", 0, 0, false, false, none, none, none, some 7, true, 5⟩
      100 "c").2.1 rfl
      (fun t m p h => by
        rw [show (check_session
            ⟨fun _ => none, fun _ => none, fun _ => false, fun _ => false, fun _ => false,
             none, [], "manual"⟩
            ⟨"rc-s", "c", 0, 0, false, false, none, none, none, some 7, true, 5⟩
            100 (some "c")).1 = none from by decide] at h
        exact Option.noConfusion h)).2.1⟩
